import Mathlib

/-!
Verification of the presentation-exchange core (oid4vp): a shallow embedding of
`src/json_schema_validation.rs` and `src/core/presentation_definition.rs`.

Modelling conventions:
- `serde_json::Value` is modelled by `Json`.  serde_json distinguishes numbers stored
  as integers from numbers stored as floats; we keep that distinction (`intNum` vs
  `floatNum`).  Finite float values are modelled as rationals.
- Rust `Result<(), _>` for the schema validator is modelled by `VResult`, which has a
  third outcome `panic` so that runtime panics (integer remainder with a zero divisor,
  or `i64::MIN % -1`) are observable in the model.
- The `regex` crate is modelled by an oracle `RegexOracle : String → Option (String → Bool)`:
  `Regex::new p` either fails (`none`) or yields a matcher.  All theorems quantify over
  the oracle, so nothing depends on a particular regex semantics.
- `f64 as i64` casts are modelled by `ratToI64` (truncation toward zero, saturating at
  the i64 bounds), matching Rust's saturating float-to-int cast.
-/

namespace Oid4vp

/-- Schema types supported by the validator (`SchemaType` in json_schema_validation.rs). -/
inductive SchemaType where
  | string
  | number
  | integer
  | boolean
  | array
  | object
deriving DecidableEq

/-- Model of `serde_json::Value`.  Numbers keep the serde_json distinction between
integer-backed and float-backed numbers; float values are modelled as rationals. -/
inductive Json where
  | str : String → Json
  | intNum : Int → Json
  | floatNum : Rat → Json
  | bool : Bool → Json
  | arr : List Json → Json
  | obj : List (String × Json) → Json
  | null : Json

def i64Min : Int := -(2 ^ 63)

def i64Max : Int := 2 ^ 63 - 1

/-- `Value::as_str`. -/
def Json.as_str : Json → Option String
  | .str s => some s
  | _ => none

/-- `Value::as_f64`: integer-backed and float-backed numbers both convert. -/
def Json.as_f64 : Json → Option Rat
  | .intNum n => some (n : Rat)
  | .floatNum q => some q
  | _ => none

/-- `Value::as_i64`: only integer-backed numbers in the i64 range convert. -/
def Json.as_i64 : Json → Option Int
  | .intNum n => if i64Min ≤ n ∧ n ≤ i64Max then some n else none
  | _ => none

/-- `Value::is_boolean`. -/
def Json.is_boolean : Json → Bool
  | .bool _ => true
  | _ => false

/-- Outcome of a validator call.  `panic` marks a Rust runtime panic. -/
inductive VResult where
  | panic
  | ok
  | err : String → VResult
deriving DecidableEq

/-- Short-circuit sequencing of two checks, as consecutive `bail!`ing blocks in Rust. -/
def vseq : VResult → VResult → VResult
  | .ok, r => r
  | .panic, _ => .panic
  | .err m, _ => .err m

/-- Model of `Regex::new` composed with `Regex::is_match`: a pattern either fails to
compile (`none`) or yields a matcher on strings. -/
def RegexOracle : Type := String → Option (String → Bool)

/-- Truncation of a rational toward zero (the rounding used by `as i64` on f64). -/
def ratTrunc (q : Rat) : Int := Int.tdiv q.num (q.den : Int)

/-- Model of Rust's saturating `f64 as i64` cast: truncate toward zero and clamp. -/
def ratToI64 (q : Rat) : Int := max i64Min (min i64Max (ratTrunc q))

/-- `SchemaValidator` (json_schema_validation.rs).  `properties` is a `HashMap` in the
source; it is modelled as an association list (the validator only reads it through
key lookup and full traversal, neither of which depends on hashing). -/
inductive SchemaValidator where
  | mk
    (schema_type : SchemaType)
    (min_length : Option Nat)
    (max_length : Option Nat)
    (pattern : Option String)
    (minimum : Option Rat)
    (maximum : Option Rat)
    (exclusive_minimum : Option Rat)
    (exclusive_maximum : Option Rat)
    (multiple_of : Option Rat)
    (required : List String)
    (properties : List (String × SchemaValidator))
    (items : Option SchemaValidator)

namespace SchemaValidator

def schema_type : SchemaValidator → SchemaType
  | .mk t _ _ _ _ _ _ _ _ _ _ _ => t

def min_length : SchemaValidator → Option Nat
  | .mk _ x _ _ _ _ _ _ _ _ _ _ => x

def max_length : SchemaValidator → Option Nat
  | .mk _ _ x _ _ _ _ _ _ _ _ _ => x

def pattern : SchemaValidator → Option String
  | .mk _ _ _ x _ _ _ _ _ _ _ _ => x

def minimum : SchemaValidator → Option Rat
  | .mk _ _ _ _ x _ _ _ _ _ _ _ => x

def maximum : SchemaValidator → Option Rat
  | .mk _ _ _ _ _ x _ _ _ _ _ _ => x

def exclusive_minimum : SchemaValidator → Option Rat
  | .mk _ _ _ _ _ _ x _ _ _ _ _ => x

def exclusive_maximum : SchemaValidator → Option Rat
  | .mk _ _ _ _ _ _ _ x _ _ _ _ => x

def multiple_of : SchemaValidator → Option Rat
  | .mk _ _ _ _ _ _ _ _ x _ _ _ => x

def required : SchemaValidator → List String
  | .mk _ _ _ _ _ _ _ _ _ x _ _ => x

def properties : SchemaValidator → List (String × SchemaValidator)
  | .mk _ _ _ _ _ _ _ _ _ _ x _ => x

def items : SchemaValidator → Option SchemaValidator
  | .mk _ _ _ _ _ _ _ _ _ _ _ x => x

/-- `SchemaValidator::new`: all optional fields unset. -/
def new (t : SchemaType) : SchemaValidator :=
  .mk t none none none none none none none none [] [] none

/-- The hand-written `PartialEq for SchemaValidator`: it compares every field except
`exclusive_minimum`, `exclusive_maximum` and `multiple_of`. -/
def sEq (a b : SchemaValidator) : Prop :=
  a.schema_type = b.schema_type
    ∧ a.min_length = b.min_length
    ∧ a.max_length = b.max_length
    ∧ a.pattern = b.pattern
    ∧ a.minimum = b.minimum
    ∧ a.maximum = b.maximum
    ∧ a.required = b.required
    ∧ a.properties = b.properties
    ∧ a.items = b.items

/-- `SchemaValidator::validate_string`.  Note the source (line 188) tests the compiled
regex against the *pattern string itself* (`regex_pattern.is_match(pattern)`), not
against the value `t`; the model reproduces that faithfully. -/
def validate_string (R : RegexOracle) (s : SchemaValidator) (v : Json) : VResult :=
  match v.as_str with
  | none => .err "Expected a string"
  | some t =>
    vseq
      (match s.min_length with
        | none => .ok
        | some m =>
          if t.utf8ByteSize ≤ m then
            .err ("String length " ++ toString t.utf8ByteSize ++ " is less than minimum "
              ++ toString m)
          else .ok)
      (vseq
        (match s.max_length with
          | none => .ok
          | some m =>
            if t.utf8ByteSize ≥ m then
              .err ("String length " ++ toString t.utf8ByteSize ++ " is greater than maximum "
                ++ toString m)
            else .ok)
        (match s.pattern with
          | none => .ok
          | some p =>
            match R p with
            | none => .err "Invalid regex pattern"
            | some matcher =>
              if matcher p then .ok
              else .err ("String does not match pattern: " ++ p)))

/-- `SchemaValidator::validate_number`.  The `multiple_of` check models the f64 `%`
operator: remainder after truncated division; `x % 0.0` is NaN, which compares
unequal to `0.0`, hence the bail in that case. -/
def validate_number (s : SchemaValidator) (v : Json) : VResult :=
  match v.as_f64 with
  | none => .err "Expected a number"
  | some n =>
    vseq
      (match s.minimum with
        | none => .ok
        | some m => if n ≤ m then .err "Number is less than minimum" else .ok)
      (vseq
        (match s.maximum with
          | none => .ok
          | some m => if n ≥ m then .err "Number is greater than maximum" else .ok)
        (vseq
          (match s.exclusive_minimum with
            | none => .ok
            | some m =>
              if n < m then .err "Number is less than or equal to exclusive minimum" else .ok)
          (vseq
            (match s.exclusive_maximum with
              | none => .ok
              | some m =>
                if n > m then .err "Number is greater than or equal to exclusive maximum"
                else .ok)
            (match s.multiple_of with
              | none => .ok
              | some m =>
                if m = 0 then .err "Number is not a multiple of multipleOf"
                else if n - m * ((ratTrunc (n / m) : Int) : Rat) ≠ 0 then
                  .err "Number is not a multiple of multipleOf"
                else .ok))))

/-- `SchemaValidator::validate_integer`.  Every f64 bound is cast with `as i64`
(saturating truncation).  The `multiple_of` check uses the i64 `%` operator, which
panics when the divisor is zero and on the overflowing pair `(i64::MIN, -1)`. -/
def validate_integer (s : SchemaValidator) (v : Json) : VResult :=
  match v.as_i64 with
  | none => .err "Expected an integer"
  | some n =>
    vseq
      (match s.minimum with
        | none => .ok
        | some m => if n ≤ ratToI64 m then .err "Integer is less than minimum" else .ok)
      (vseq
        (match s.maximum with
          | none => .ok
          | some m => if n ≥ ratToI64 m then .err "Integer is greater than maximum" else .ok)
        (vseq
          (match s.exclusive_minimum with
            | none => .ok
            | some m =>
              if n < ratToI64 m then .err "Integer is less than or equal to exclusive minimum"
              else .ok)
          (vseq
            (match s.exclusive_maximum with
              | none => .ok
              | some m =>
                if n > ratToI64 m then
                  .err "Integer is greater than or equal to exclusive maximum"
                else .ok)
            (match s.multiple_of with
              | none => .ok
              | some m =>
                let d := ratToI64 m
                if d = 0 then .panic
                else if n = i64Min ∧ d = -1 then .panic
                else if n % d ≠ 0 then .err "Integer is not a multiple of multipleOf"
                else .ok))))

/-- `SchemaValidator::validate_boolean`. -/
def validate_boolean (_s : SchemaValidator) (v : Json) : VResult :=
  if v.is_boolean then .ok else .err "Expected a boolean"

end SchemaValidator

/-- First match under a key in a JSON object (`serde_json::Map::get` / `contains_key`;
parsed JSON objects have unique keys). -/
def lookupKey : List (String × Json) → String → Option Json
  | [], _ => none
  | (k, x) :: rest, key => if k = key then some x else lookupKey rest key

/-- The `required` loop of `SchemaValidator::validate_object`: bail on the first
required property that is not a key of the object. -/
def checkRequired (kvs : List (String × Json)) : List String → VResult
  | [] => .ok
  | r :: rest =>
    if (lookupKey kvs r).isSome then checkRequired kvs rest
    else .err ("Missing required property: " ++ r)

mutual

/-- `SchemaValidator::validate`: dispatch on the declared schema type. -/
def SchemaValidator.validate (R : RegexOracle) (s : SchemaValidator) (v : Json) : VResult :=
  match s.schema_type with
  | .string => s.validate_string R v
  | .number => s.validate_number v
  | .integer => s.validate_integer v
  | .boolean => s.validate_boolean v
  | .array => SchemaValidator.validate_array R s v
  | .object => SchemaValidator.validate_object R s v
termination_by (sizeOf s, 2, 0)

/-- `SchemaValidator::validate_array`: length bounds are inclusive, then every element
runs through the item validator when one is set. -/
def SchemaValidator.validate_array (R : RegexOracle) (s : SchemaValidator) (v : Json) :
    VResult :=
  match s, v with
  | .mk _ minl maxl _ _ _ _ _ _ _ _ itemv, .arr xs =>
    vseq
      (match minl with
        | none => .ok
        | some m =>
          if xs.length < m then
            .err ("Array length " ++ toString xs.length ++ " is less than minimum "
              ++ toString m)
          else .ok)
      (vseq
        (match maxl with
          | none => .ok
          | some m =>
            if xs.length > m then
              .err ("Array length " ++ toString xs.length ++ " is greater than maximum "
                ++ toString m)
            else .ok)
        (match itemv with
          | none => .ok
          | some iv => SchemaValidator.validateItems R iv 0 xs))
  | _, _ => .err "Expected an array"
termination_by (sizeOf s, 1, 0)

/-- The element loop of `validate_array`: each failure is wrapped with its index. -/
def SchemaValidator.validateItems (R : RegexOracle) (iv : SchemaValidator) (idx : Nat)
    (xs : List Json) : VResult :=
  match xs with
  | [] => .ok
  | x :: rest =>
    match SchemaValidator.validate R iv x with
    | .panic => .panic
    | .err m => .err ("Error in array item " ++ toString idx ++ ": " ++ m)
    | .ok => SchemaValidator.validateItems R iv (idx + 1) rest
termination_by (sizeOf iv, 3, xs.length)

/-- `SchemaValidator::validate_object`: first the `required` loop, then every declared
property validator runs on the correspondingly named property when present. -/
def SchemaValidator.validate_object (R : RegexOracle) (s : SchemaValidator) (v : Json) :
    VResult :=
  match s, v with
  | .mk _ _ _ _ _ _ _ _ _ req props _, .obj kvs =>
    match checkRequired kvs req with
    | .ok => SchemaValidator.validateProps R kvs props
    | r => r
  | _, _ => .err "Expected an object"
termination_by (sizeOf s, 1, 0)

/-- The property loop of `validate_object`: absent non-required properties are skipped;
a failure is wrapped with the property name. -/
def SchemaValidator.validateProps (R : RegexOracle) (kvs : List (String × Json))
    (props : List (String × SchemaValidator)) : VResult :=
  match props with
  | [] => .ok
  | (k, pv) :: rest =>
    match lookupKey kvs k with
    | none => SchemaValidator.validateProps R kvs rest
    | some pval =>
      match SchemaValidator.validate R pv pval with
      | .panic => .panic
      | .err m => .err ("Error in property " ++ k ++ ": " ++ m)
      | .ok => SchemaValidator.validateProps R kvs rest
termination_by (sizeOf props, 3, 0)

end

/-- Modelled from the spec: `DescriptorMap` (presentation_submission.rs is not among the
sources).  One correlation entry of a submission: descriptor id, claim format
designation, locator expression into the presentation envelope, optional nested path
(spec §3). -/
structure DescriptorMap where
  id : String
  format : String
  path : String
  path_nested : Option String

/-- Modelled from the spec: `PresentationSubmission` (presentation_submission.rs is not
among the sources): generated id, the definition id it claims to satisfy, and the
ordered descriptor map (spec §3). -/
structure PresentationSubmission where
  id : String
  definition_id : String
  descriptor_map : List DescriptorMap

/-- Modelled from the spec: `InputDescriptor` (input_descriptor.rs is not among the
sources).  Only its id is read by `validate_authorization_response`; its constraints
are consumed by the descriptor-level validation, which is abstracted below as the
parameter `vvp` (spec §3, §4.2). -/
structure InputDescriptor where
  id : String

/-- `PresentationDefinition` (presentation_definition.rs).  The optional format map is
never read by `validate_authorization_response` and is omitted from the model. -/
structure PresentationDefinition where
  id : String
  input_descriptors : List InputDescriptor
  name : Option String
  purpose : Option String

/-- Modelled from the spec: the authorization response boundary (response.rs is not
among the sources): a tagged union of a JWT-encoded variant and an unencoded variant
carrying the vp token and the submission envelope (spec §6). -/
structure UnencodedAuthorizationResponse where
  vp_token : String
  presentation_submission : PresentationSubmission

/-- Modelled from the spec: the two response variants (spec §6). -/
inductive AuthorizationResponse where
  | Jwt : String → AuthorizationResponse
  | Unencoded : UnencodedAuthorizationResponse → AuthorizationResponse

/-- The `HashMap` built by `validate_authorization_response` from the submission's
descriptor-map entries, keyed by descriptor id: a left fold of insertions, so a later
entry overwrites an earlier one with the same id.  Modelled by its lookup function. -/
def collectDescriptorMap (entries : List DescriptorMap) : String → Option DescriptorMap :=
  entries.foldl (fun acc e k => if k = e.id then some e else acc k) (fun _ => none)

/-- The input-descriptor loop of `validate_authorization_response`: each descriptor of
the definition must have an entry in the lookup; the matching entry is handed to the
descriptor-level validation `vvp` (`InputDescriptor::validate_verifiable_presentation`,
abstracted: input_descriptor.rs is not among the sources), whose failure is wrapped
with context and fails everything. -/
def validateDescriptors {VP : Type}
    (vvp : InputDescriptor → VP → DescriptorMap → Except String Unit)
    (vp : VP) (dm : String → Option DescriptorMap) :
    List InputDescriptor → Except String Unit
  | [] => .ok ()
  | d :: rest =>
    match dm d.id with
    | none => .error "Input Descriptor ID not found in Descriptor Map."
    | some entry =>
      match vvp d vp entry with
      | .error e => .error (e ++ " Input Descriptor Validation Failed.")
      | .ok _ => validateDescriptors vvp vp dm rest

/-- `PresentationDefinition::validate_authorization_response`.  The token decoder
(`ssi_claims::jwt::decode_unverified`, external) and the descriptor-level validation
(input_descriptor.rs, not among the sources) enter as parameters `decode` and `vvp`;
`VP` stands for the decoded `VerifiablePresentation`. -/
def PresentationDefinition.validate_authorization_response {VP : Type}
    (decode : String → Except String VP)
    (vvp : InputDescriptor → VP → DescriptorMap → Except String Unit)
    (self : PresentationDefinition) (auth_response : AuthorizationResponse) :
    Except String Unit :=
  match auth_response with
  | .Jwt _ =>
    .error "Authorization Response Presentation Definition Validation Not Implemented."
  | .Unencoded response =>
    match decode response.vp_token with
    | .error e => .error e
    | .ok vp =>
      if response.presentation_submission.definition_id ≠ self.id then
        .error "Presentation Definition ID does not match the Presentation Submission."
      else
        validateDescriptors vvp vp
          (collectDescriptorMap response.presentation_submission.descriptor_map)
          self.input_descriptors

/-! ### Concrete instances used to exercise the definitions -/

/-- A regex oracle under which no pattern compiles. -/
def R0 : RegexOracle := fun _ => none

/-- The matching behaviour of the regular expression `^a$`: it matches exactly the
one-character string "a". -/
def matcherCaretADollar : String → Bool := fun t => t == "a"

/-- A regex oracle under which every pattern compiles to the `^a$` matcher. -/
def R1 : RegexOracle := fun _ => some matcherCaretADollar

def qHalf : Rat := ⟨1, 2, by decide, by decide⟩

def q3 : Rat := ⟨3, 1, by decide, by decide⟩

def q5 : Rat := ⟨5, 1, by decide, by decide⟩

def q7 : Rat := ⟨7, 1, by decide, by decide⟩

/-- `{"type": "integer", "multipleOf": 0.5}`: the f64 `0.5` truncates to the i64 `0`. -/
def intMultipleOfHalf : SchemaValidator :=
  .mk .integer none none none none none none none (some qHalf) [] [] none

/-- `{"type": "number", "exclusiveMinimum": 5.0}`. -/
def numExclusiveMin5 : SchemaValidator :=
  .mk .number none none none none none (some q5) none none [] [] none

/-- `{"type": "number", "exclusiveMaximum": 7.0}`. -/
def numExclusiveMax7 : SchemaValidator :=
  .mk .number none none none none none none (some q7) none [] [] none

/-- `{"type": "integer", "exclusiveMinimum": 5.0}`. -/
def intExclusiveMin5 : SchemaValidator :=
  .mk .integer none none none none none (some q5) none none [] [] none

/-- `{"type": "integer", "exclusiveMaximum": 7.0}`. -/
def intExclusiveMax7 : SchemaValidator :=
  .mk .integer none none none none none none (some q7) none [] [] none

/-- `{"type": "string", "pattern": p}`. -/
def stringPatternOnly (p : String) : SchemaValidator :=
  .mk .string none none (some p) none none none none none [] [] none

/-- `{"type": "object", "required": ["a"]}` with no child validators. -/
def objRequiredA : SchemaValidator :=
  .mk .object none none none none none none none none ["a"] [] none

/-- `{"type": "array", "minLength": 2, "maxLength": 2}` with no item validator. -/
def arrayBounds22 : SchemaValidator :=
  .mk .array (some 2) (some 2) none none none none none none [] [] none

/-- A `Number` validator with no bounds at all. -/
def eqExA : SchemaValidator := SchemaValidator.new .number

/-- A `Number` validator that differs from `eqExA` only in `exclusive_minimum`. -/
def eqExB : SchemaValidator :=
  .mk .number none none none none none (some q5) none none [] [] none

/-- A decoder that accepts every token (the decoded presentation carries no data the
modelled code inspects). -/
def decodeU : String → Except String Unit := fun _ => .ok ()

/-- A descriptor-level validation that accepts everything. -/
def vvpAccept : InputDescriptor → Unit → DescriptorMap → Except String Unit :=
  fun _ _ _ => .ok ()

/-- A descriptor-level validation that rejects everything (its error text records that
descriptor-level validation was reached). -/
def vvpReject : InputDescriptor → Unit → DescriptorMap → Except String Unit :=
  fun _ _ _ => .error "descriptor validation reached"

/-- A descriptor-level validation that accepts exactly the entries whose path is "p2"
(used to observe which duplicate entry the loop consults). -/
def vvpLastOnly : InputDescriptor → Unit → DescriptorMap → Except String Unit :=
  fun _ _ e =>
    if e.path = "p2" then .ok () else .error "validated against non-last duplicate"

def descD1 : InputDescriptor := ⟨"d1"⟩

/-- A definition with id "A" and the single input descriptor "d1". -/
def defnA : PresentationDefinition := ⟨"A", [descD1], none, none⟩

def entryOther : DescriptorMap := ⟨"other", "jwt_vp", "$", none⟩

def entryD1a : DescriptorMap := ⟨"d1", "jwt_vp", "p1", none⟩

def entryD1b : DescriptorMap := ⟨"d1", "jwt_vp", "p2", none⟩

/-- A response whose submission declares definition id "B" (mismatching `defnA`). -/
def respWrongId : UnencodedAuthorizationResponse := ⟨"tok", ⟨"ps", "B", [entryD1a]⟩⟩

/-- A response whose submission has no entry for descriptor "d1". -/
def respMissing : UnencodedAuthorizationResponse := ⟨"tok", ⟨"ps", "A", [entryOther]⟩⟩

/-- A response whose submission has two entries for descriptor "d1"; the second one has
path "p2". -/
def respDup : UnencodedAuthorizationResponse :=
  ⟨"tok", ⟨"ps", "A", [entryD1a, entryD1b]⟩⟩

/-- Spec-side description, for comparison with `collectDescriptorMap`: the *last* entry
in list order whose id is `k`, if any ("last entry wins"). -/
def lastEntryFor (k : String) : List DescriptorMap → Option DescriptorMap
  | [] => none
  | e :: rest =>
    match lastEntryFor k rest with
    | some x => some x
    | none => if e.id = k then some e else none

/-! ### Helper lemmas -/

theorem vseq_ok_iff (a b : VResult) : vseq a b = .ok ↔ (a = .ok ∧ b = .ok) := by
  cases a <;> simp [vseq]

theorem validateItems_ok_of_all (R : RegexOracle) (iv : SchemaValidator) (idx : Nat)
    (xs : List Json) (h : ∀ x ∈ xs, SchemaValidator.validate R iv x = .ok) :
    SchemaValidator.validateItems R iv idx xs = .ok := by
  induction xs generalizing idx with
  | nil => unfold SchemaValidator.validateItems; rfl
  | cons x rest ih =>
    unfold SchemaValidator.validateItems
    rw [h x (List.mem_cons_self x rest)]
    exact ih (idx + 1) fun y hy => h y (List.mem_cons_of_mem x hy)

theorem checkRequired_ok_iff (kvs : List (String × Json)) (req : List String) :
    checkRequired kvs req = .ok ↔ ∀ r ∈ req, (lookupKey kvs r).isSome := by
  induction req with
  | nil => simp [checkRequired]
  | cons r rest ih =>
    by_cases h : (lookupKey kvs r).isSome
    · simp [checkRequired, h, ih]
    · simp [checkRequired, h]

theorem validateProps_ok_iff (R : RegexOracle) (kvs : List (String × Json))
    (props : List (String × SchemaValidator)) :
    SchemaValidator.validateProps R kvs props = .ok ↔
      ∀ p ∈ props, ∀ x, lookupKey kvs p.1 = some x →
        SchemaValidator.validate R p.2 x = .ok := by
  induction props with
  | nil =>
    unfold SchemaValidator.validateProps
    simp
  | cons p rest ih =>
    obtain ⟨k, pv⟩ := p
    unfold SchemaValidator.validateProps
    cases hl : lookupKey kvs k with
    | none =>
      simp only [List.mem_cons, ih]
      constructor
      · rintro hrest q (rfl | hq)
        · intro x hx; rw [hl] at hx; exact absurd hx (by simp)
        · exact hrest q hq
      · intro hall q hq; exact hall q (Or.inr hq)
    | some pval =>
      cases hv : SchemaValidator.validate R pv pval with
      | panic =>
        simp only [hv, List.mem_cons]
        constructor
        · intro h; exact VResult.noConfusion h
        · intro hall
          have h2 := hall (k, pv) (Or.inl rfl) pval hl
          rw [hv] at h2; exact VResult.noConfusion h2
      | err m =>
        simp only [hv, List.mem_cons]
        constructor
        · intro h; exact VResult.noConfusion h
        · intro hall
          have h2 := hall (k, pv) (Or.inl rfl) pval hl
          rw [hv] at h2; exact VResult.noConfusion h2
      | ok =>
        simp only [hv, List.mem_cons, ih]
        constructor
        · rintro hrest q (rfl | hq)
          · intro x hx; rw [hl] at hx; cases hx; exact hv
          · exact hrest q hq
        · intro hall q hq; exact hall q (Or.inr hq)

theorem collectDescriptorMap_apply (entries : List DescriptorMap)
    (acc : String → Option DescriptorMap) (k : String) :
    (entries.foldl (fun acc e k => if k = e.id then some e else acc k) acc) k =
      match lastEntryFor k entries with
      | some e => some e
      | none => acc k := by
  induction entries generalizing acc with
  | nil => simp [lastEntryFor]
  | cons e rest ih =>
    rw [List.foldl_cons, ih]
    simp only [lastEntryFor]
    cases hrest : lastEntryFor k rest with
    | some x => simp [hrest]
    | none =>
      simp only [hrest]
      by_cases h : k = e.id
      · simp [h]
      · have h' : ¬(e.id = k) := fun he => h he.symm
        simp [h, h']

theorem lastEntryFor_eq_none (k : String) (entries : List DescriptorMap)
    (h : ∀ e ∈ entries, e.id ≠ k) : lastEntryFor k entries = none := by
  induction entries with
  | nil => rfl
  | cons e rest ih =>
    unfold lastEntryFor
    rw [ih fun x hx => h x (List.mem_cons_of_mem e hx)]
    simp [h e (List.mem_cons_self e rest)]

theorem validateDescriptors_isErr_of_missing {VP : Type}
    (vvp : InputDescriptor → VP → DescriptorMap → Except String Unit) (vp : VP)
    (dm : String → Option DescriptorMap) (ds : List InputDescriptor)
    (d : InputDescriptor) (hd : d ∈ ds) (hmiss : dm d.id = none) :
    ∃ msg, validateDescriptors vvp vp dm ds = .error msg := by
  induction ds with
  | nil => exact absurd hd (List.not_mem_nil d)
  | cons d0 rest ih =>
    unfold validateDescriptors
    cases h0 : dm d0.id with
    | none => exact ⟨_, rfl⟩
    | some entry =>
      dsimp only
      have hd' : d ∈ rest := by
        rcases List.mem_cons.mp hd with rfl | hmem
        · rw [hmiss] at h0; cases h0
        · exact hmem
      cases hv : vvp d0 vp entry with
      | error e => simp only [hv]; exact ⟨_, rfl⟩
      | ok u => cases u; simp only [hv]; exact ih hd'

theorem validateDescriptors_missing_msg {VP : Type}
    (vvp : InputDescriptor → VP → DescriptorMap → Except String Unit) (vp : VP)
    (dm : String → Option DescriptorMap) (ds : List InputDescriptor)
    (d : InputDescriptor) (hd : d ∈ ds) (hmiss : dm d.id = none)
    (hok : ∀ d' vp' entry, vvp d' vp' entry = .ok ()) :
    validateDescriptors vvp vp dm ds = .error "Input Descriptor ID not found in Descriptor Map." := by
  induction ds with
  | nil => exact absurd hd (List.not_mem_nil d)
  | cons d0 rest ih =>
    unfold validateDescriptors
    cases h0 : dm d0.id with
    | none => rfl
    | some entry =>
      dsimp only
      have hd' : d ∈ rest := by
        rcases List.mem_cons.mp hd with rfl | hmem
        · rw [hmiss] at h0; cases h0
        · exact hmem
      rw [hok d0 vp entry]
      exact ih hd'

theorem validate_object_reduce (R : RegexOracle) (req : List String)
    (props : List (String × SchemaValidator)) (kvs : List (String × Json)) :
    SchemaValidator.validate R
        (.mk .object none none none none none none none none req props none)
        (.obj kvs) =
      match checkRequired kvs req with
      | .ok => SchemaValidator.validateProps R kvs props
      | r => r := by
  unfold SchemaValidator.validate
  simp only [SchemaValidator.schema_type]
  unfold SchemaValidator.validate_object
  rfl

/-! ### Claim theorems -/

/-- C1: for a String schema whose `pattern` compiles (to `matcher`), the outcome of
`validate` on a string value is `if matcher pattern then ok else err`: the compiled
regex is tested against the *pattern string itself* and the validated value `s` is
never consulted, contradicting the claim that success tracks whether `s` matches the
pattern. -/
theorem c1_pattern_checked_against_itself (R : RegexOracle) (p : String)
    (matcher : String → Bool) (s : String) (hR : R p = some matcher) :
    SchemaValidator.validate R (stringPatternOnly p) (.str s) =
      (if matcher p then .ok else .err ("String does not match pattern: " ++ p)) := by
  unfold SchemaValidator.validate
  simp only [stringPatternOnly, SchemaValidator.schema_type]
  unfold SchemaValidator.validate_string
  simp only [SchemaValidator.min_length, SchemaValidator.max_length,
    SchemaValidator.pattern, Json.as_str, hR, vseq]

/-- C1 witness: under an oracle whose compiled `^a$` matches exactly "a", validating
the value "a" (which matches the pattern) against `{"type":"string","pattern":"^a$"}`
nevertheless fails, because the pattern string "^a$" does not match itself. -/
theorem c1_witness :
    SchemaValidator.validate R1 (stringPatternOnly "^a$") (.str "a") =
      .err "String does not match pattern: ^a$" := by
  rw [c1_pattern_checked_against_itself R1 "^a$" matcherCaretADollar "a" rfl]
  decide

/-- C2: `validate` is not total: an Integer schema with `multipleOf` 0.5 (whose `as
i64` cast is 0) panics on the integer value 1 via `1 % 0`. -/
theorem c2_integer_multiple_of_zero_panics :
    SchemaValidator.validate R0 intMultipleOfHalf (.intNum 1) = .panic := by
  unfold SchemaValidator.validate
  decide

/-- C3: the exclusive bounds are checked with strict comparisons in the bail condition
(`n < exclusive_minimum`, `n > exclusive_maximum`), so a value *equal* to the
exclusive bound passes validation, for Number and Integer alike — contradicting the
claim that equality fails. -/
theorem c3_exclusive_bounds_pass_at_equality :
    SchemaValidator.validate R0 numExclusiveMin5 (.floatNum q5) = .ok
      ∧ SchemaValidator.validate R0 numExclusiveMax7 (.floatNum q7) = .ok
      ∧ SchemaValidator.validate R0 intExclusiveMin5 (.intNum 5) = .ok
      ∧ SchemaValidator.validate R0 intExclusiveMax7 (.intNum 7) = .ok := by
  refine ⟨?_, ?_, ?_, ?_⟩ <;> (unfold SchemaValidator.validate; decide)

/-- C6: for a String schema with `min_length = m` and `max_length = M` (and no
pattern), validation succeeds exactly when the byte length is strictly greater than
`m` and strictly less than `M`: both boundaries fail. -/
theorem c6_string_length_bounds_strict (R : RegexOracle) (m M : Nat) (s : String) :
    SchemaValidator.validate R
        (.mk .string (some m) (some M) none none none none none none [] [] none)
        (.str s) = .ok
      ↔ (m < s.utf8ByteSize ∧ s.utf8ByteSize < M) := by
  unfold SchemaValidator.validate
  simp [SchemaValidator.validate_string, SchemaValidator.schema_type,
    SchemaValidator.min_length, SchemaValidator.max_length, SchemaValidator.pattern,
    Json.as_str, vseq]
  split_ifs with h1 h2 <;> simp [vseq] <;> omega

/-- C6 witness: the claim theorem at the string "ab" with bounds 1 and 3. -/
theorem c6_witness :
    SchemaValidator.validate R0
        (.mk .string (some 1) (some 3) none none none none none none [] [] none)
        (.str "ab") = .ok
      ↔ (1 < ("ab" : String).utf8ByteSize ∧ ("ab" : String).utf8ByteSize < 3) :=
  c6_string_length_bounds_strict R0 1 3 "ab"

/-- C7: for an Array schema with `min_length = m` and `max_length = M`, when every
element passes the item validator (vacuously when no item validator is set),
validation succeeds exactly when `m ≤ length ∧ length ≤ M` — both bounds inclusive,
in contrast to the strict String semantics. -/
theorem c7_array_length_bounds_inclusive (R : RegexOracle) (m M : Nat)
    (itemv : Option SchemaValidator) (xs : List Json)
    (h : ∀ iv, itemv = some iv → ∀ x ∈ xs, SchemaValidator.validate R iv x = .ok) :
    SchemaValidator.validate R
        (.mk .array (some m) (some M) none none none none none none [] [] itemv)
        (.arr xs) = .ok
      ↔ (m ≤ xs.length ∧ xs.length ≤ M) := by
  unfold SchemaValidator.validate
  simp only [SchemaValidator.schema_type]
  unfold SchemaValidator.validate_array
  dsimp only
  cases itemv with
  | none => split_ifs with h1 h2 <;> simp [vseq] <;> omega
  | some iv =>
    dsimp only
    rw [validateItems_ok_of_all R iv 0 xs (h iv rfl)]
    split_ifs with h1 h2 <;> simp [vseq] <;> omega

/-- C7 witness: an array of exactly the bound length (2) passes against
`{"type":"array","minLength":2,"maxLength":2}`. -/
theorem c7_witness :
    SchemaValidator.validate R0 arrayBounds22 (.arr [.bool true, .bool false]) = .ok
      ↔ (2 ≤ 2 ∧ 2 ≤ 2) :=
  c7_array_length_bounds_inclusive R0 2 2 none [.bool true, .bool false]
    (fun _ h => Option.noConfusion h)

/-- C8: for an Object schema, validating `{}` against `required = ["a"]` fails with
the missing-required-property error, `{"a": 1}` passes when no child validator is
declared for "a", and in general validation succeeds exactly when every required name
is a present key and every declared child validator accepts the correspondingly named
property whenever it is present (absent non-required properties are not validated). -/
theorem c8_object_required_and_properties (R : RegexOracle) :
    SchemaValidator.validate R objRequiredA (.obj []) = .err "Missing required property: a"
      ∧ SchemaValidator.validate R objRequiredA (.obj [("a", .intNum 1)]) = .ok
      ∧ ∀ (req : List String) (props : List (String × SchemaValidator))
          (kvs : List (String × Json)),
          (SchemaValidator.validate R
              (.mk .object none none none none none none none none req props none)
              (.obj kvs) = .ok
            ↔ ((∀ r ∈ req, (lookupKey kvs r).isSome)
              ∧ ∀ p ∈ props, ∀ x, lookupKey kvs p.1 = some x →
                  SchemaValidator.validate R p.2 x = .ok)) := by
  refine ⟨?_, ?_, ?_⟩
  · unfold SchemaValidator.validate SchemaValidator.validate_object
    rfl
  · unfold SchemaValidator.validate SchemaValidator.validate_object
      SchemaValidator.validateProps
    rfl
  · intro req props kvs
    rw [validate_object_reduce]
    by_cases hreq : ∀ r ∈ req, (lookupKey kvs r).isSome
    · have hr : checkRequired kvs req = .ok := (checkRequired_ok_iff kvs req).mpr hreq
      simp only [hr]
      rw [validateProps_ok_iff]
      constructor
      · intro hp; exact ⟨hreq, hp⟩
      · rintro ⟨_, hp⟩; exact hp
    · have hr : checkRequired kvs req ≠ .ok :=
        fun h => hreq ((checkRequired_ok_iff kvs req).mp h)
      cases hr2 : checkRequired kvs req with
      | ok => exact absurd hr2 hr
      | panic => simp only [hr2]; simp [hreq]
      | err m => simp only [hr2]; simp [hreq]

/-- C8 witness: the claim theorem at the oracle under which no pattern compiles. -/
theorem c8_witness :
    SchemaValidator.validate R0 objRequiredA (.obj []) = .err "Missing required property: a"
      ∧ SchemaValidator.validate R0 objRequiredA (.obj [("a", .intNum 1)]) = .ok
      ∧ ∀ (req : List String) (props : List (String × SchemaValidator))
          (kvs : List (String × Json)),
          (SchemaValidator.validate R0
              (.mk .object none none none none none none none none req props none)
              (.obj kvs) = .ok
            ↔ ((∀ r ∈ req, (lookupKey kvs r).isSome)
              ∧ ∀ p ∈ props, ∀ x, lookupKey kvs p.1 = some x →
                  SchemaValidator.validate R0 p.2 x = .ok)) :=
  c8_object_required_and_properties R0

/-- C10: the hand-written equality on `SchemaValidator` compares every field except
`exclusive_minimum`, `exclusive_maximum` and `multiple_of`, so any two validators
agreeing on the nine compared fields are equal; consequently the equal pair
`eqExA`/`eqExB` (differing only in `exclusive_minimum`) validate the number 3
differently. -/
theorem c10_partial_eq_ignores_exclusive_fields :
    (∀ a b : SchemaValidator,
        a.schema_type = b.schema_type → a.min_length = b.min_length →
        a.max_length = b.max_length → a.pattern = b.pattern →
        a.minimum = b.minimum → a.maximum = b.maximum →
        a.required = b.required → a.properties = b.properties →
        a.items = b.items → SchemaValidator.sEq a b)
      ∧ SchemaValidator.sEq eqExA eqExB
      ∧ SchemaValidator.validate R0 eqExA (.floatNum q3) = .ok
      ∧ SchemaValidator.validate R0 eqExB (.floatNum q3) =
          .err "Number is less than or equal to exclusive minimum" := by
  refine ⟨?_, ?_, ?_, ?_⟩
  · intro a b h1 h2 h3 h4 h5 h6 h7 h8 h9
    exact ⟨h1, h2, h3, h4, h5, h6, h7, h8, h9⟩
  · exact ⟨rfl, rfl, rfl, rfl, rfl, rfl, rfl, rfl, rfl⟩
  · unfold SchemaValidator.validate
    decide
  · unfold SchemaValidator.validate
    decide

/-- C10 witness: the first component of the claim theorem applied to the concrete
pair `eqExA`, `eqExB`. -/
theorem c10_witness : SchemaValidator.sEq eqExA eqExB :=
  c10_partial_eq_ignores_exclusive_fields.1 eqExA eqExB
    rfl rfl rfl rfl rfl rfl rfl rfl rfl

/-- C4: for an Unencoded response whose token decodes, a mismatch between the
submission's declared definition id and the definition's own id makes
`validate_authorization_response` fail with the id-mismatch error, and the result is
the same for every descriptor-level validation — no input descriptor is examined. -/
theorem c4_definition_id_mismatch_fails_before_descriptors {VP : Type}
    (decode : String → Except String VP)
    (vvp vvp2 : InputDescriptor → VP → DescriptorMap → Except String Unit)
    (self : PresentationDefinition) (response : UnencodedAuthorizationResponse)
    (vp : VP) (hdec : decode response.vp_token = .ok vp)
    (hid : response.presentation_submission.definition_id ≠ self.id) :
    PresentationDefinition.validate_authorization_response decode vvp self
        (.Unencoded response)
      = .error "Presentation Definition ID does not match the Presentation Submission."
    ∧ PresentationDefinition.validate_authorization_response decode vvp self
        (.Unencoded response)
      = PresentationDefinition.validate_authorization_response decode vvp2 self
        (.Unencoded response) := by
  have key : ∀ w : InputDescriptor → VP → DescriptorMap → Except String Unit,
      PresentationDefinition.validate_authorization_response decode w self
          (.Unencoded response)
        = .error "Presentation Definition ID does not match the Presentation Submission." := by
    intro w
    unfold PresentationDefinition.validate_authorization_response
    dsimp only
    rw [hdec]
    simp [hid]
  exact ⟨key vvp, (key vvp).trans (key vvp2).symm⟩

/-- C4 witness: the definition "A" against a submission declaring definition id "B"
fails with the id-mismatch error, identically under an accepting and a rejecting
descriptor-level validation. -/
theorem c4_witness :
    PresentationDefinition.validate_authorization_response decodeU vvpAccept defnA
        (.Unencoded respWrongId)
      = .error "Presentation Definition ID does not match the Presentation Submission."
    ∧ PresentationDefinition.validate_authorization_response decodeU vvpAccept defnA
        (.Unencoded respWrongId)
      = PresentationDefinition.validate_authorization_response decodeU vvpReject defnA
        (.Unencoded respWrongId) :=
  c4_definition_id_mismatch_fails_before_descriptors decodeU vvpAccept vvpReject defnA
    respWrongId () rfl (by decide)

/-- C5: for an Unencoded response that decodes and passes the definition-id check, if
some input descriptor of the definition has no descriptor-map entry with its id, then
`validate_authorization_response` fails; and whenever descriptor-level validation
accepts everything (so no other failure can pre-empt the loop), the error is exactly
the missing-descriptor message. -/
theorem c5_missing_descriptor_entry_fails {VP : Type}
    (decode : String → Except String VP)
    (vvp : InputDescriptor → VP → DescriptorMap → Except String Unit)
    (self : PresentationDefinition) (response : UnencodedAuthorizationResponse)
    (vp : VP) (d : InputDescriptor)
    (hdec : decode response.vp_token = .ok vp)
    (hid : response.presentation_submission.definition_id = self.id)
    (hd : d ∈ self.input_descriptors)
    (hmiss : ∀ e ∈ response.presentation_submission.descriptor_map, e.id ≠ d.id) :
    (∃ msg, PresentationDefinition.validate_authorization_response decode vvp self
        (.Unencoded response) = .error msg)
    ∧ ((∀ d' vp' entry, vvp d' vp' entry = .ok ()) →
        PresentationDefinition.validate_authorization_response decode vvp self
            (.Unencoded response)
          = .error "Input Descriptor ID not found in Descriptor Map.") := by
  have hdm : collectDescriptorMap response.presentation_submission.descriptor_map d.id
      = none := by
    unfold collectDescriptorMap
    rw [collectDescriptorMap_apply, lastEntryFor_eq_none d.id _ hmiss]
  have hred : PresentationDefinition.validate_authorization_response decode vvp self
      (.Unencoded response)
      = validateDescriptors vvp vp
          (collectDescriptorMap response.presentation_submission.descriptor_map)
          self.input_descriptors := by
    unfold PresentationDefinition.validate_authorization_response
    dsimp only
    rw [hdec]
    simp [hid]
  constructor
  · rw [hred]
    exact validateDescriptors_isErr_of_missing vvp vp _ _ d hd hdm
  · intro hok
    rw [hred]
    exact validateDescriptors_missing_msg vvp vp _ _ d hd hdm hok

/-- C5 witness: the definition "A" (descriptor "d1") against a submission whose only
entry has id "other" fails with the missing-descriptor error. -/
theorem c5_witness :
    PresentationDefinition.validate_authorization_response decodeU vvpAccept defnA
        (.Unencoded respMissing)
      = .error "Input Descriptor ID not found in Descriptor Map." :=
  (c5_missing_descriptor_entry_fails decodeU vvpAccept defnA respMissing () descD1
      rfl rfl
      (by simp [defnA])
      (by
        intro e he
        simp only [respMissing, entryOther] at he
        rw [List.mem_singleton] at he
        subst he
        decide)).2
    (fun _ _ _ => rfl)

/-- C9: the lookup built from the descriptor-map entries maps each id to the *last*
entry with that id in list order; and for a definition with one descriptor, when the
last duplicate entry passes descriptor-level validation the whole validation succeeds
(earlier duplicates are dropped without any error and never validated against). -/
theorem c9_duplicate_descriptor_ids_last_wins :
    (∀ (entries : List DescriptorMap) (k : String),
        collectDescriptorMap entries k = lastEntryFor k entries)
    ∧ ∀ (VP : Type) (decode : String → Except String VP)
        (vvp : InputDescriptor → VP → DescriptorMap → Except String Unit)
        (self : PresentationDefinition) (response : UnencodedAuthorizationResponse)
        (vp : VP) (d : InputDescriptor) (entry : DescriptorMap),
        decode response.vp_token = .ok vp →
        response.presentation_submission.definition_id = self.id →
        self.input_descriptors = [d] →
        lastEntryFor d.id response.presentation_submission.descriptor_map = some entry →
        vvp d vp entry = .ok () →
        PresentationDefinition.validate_authorization_response decode vvp self
          (.Unencoded response) = .ok () := by
  constructor
  · intro entries k
    unfold collectDescriptorMap
    rw [collectDescriptorMap_apply]
    cases lastEntryFor k entries <;> rfl
  · intro VP decode vvp self response vp d entry hdec hid hds hlast hvvp
    have hdm : collectDescriptorMap response.presentation_submission.descriptor_map d.id
        = some entry := by
      unfold collectDescriptorMap
      rw [collectDescriptorMap_apply, hlast]
    unfold PresentationDefinition.validate_authorization_response
    dsimp only
    rw [hdec]
    simp only [hid, hds]
    simp only [ne_eq, not_true_eq_false, if_false, ite_false]
    unfold validateDescriptors
    rw [hdm]
    dsimp only
    simp only [hvvp]
    unfold validateDescriptors
    rfl

/-- C9 witness: with two entries for descriptor "d1" and a descriptor-level validation
accepting exactly the second entry (path "p2"), the whole validation succeeds: only
the last duplicate is consulted. -/
theorem c9_witness :
    PresentationDefinition.validate_authorization_response decodeU vvpLastOnly defnA
      (.Unencoded respDup) = .ok () :=
  c9_duplicate_descriptor_ids_last_wins.2 Unit decodeU vvpLastOnly defnA respDup ()
    descD1 entryD1b rfl rfl rfl rfl rfl

end Oid4vp
